import Mathlib

/-!
Shallow embedding of the Gateway Supervisor subsystem of the
openclaw-dashboard repository: the process manager
(`GatewayProcessManager`: getStatus / start / stop / restart /
healthCheck), the webhook reconciliation cycle
(`WebhookPollerService.checkAndRestart`), the webhook activity predicate
(`checkWebhookStatus`), the restart-attempt rate limiter
(`db.getRecentRestartAttempts`) and the connection-mode switch
(`setConnectionMode` tRPC mutation).

External effects (pid file, process table, Telegram API, settings store,
database history sink) are made explicit as fields of a `World` record
for the process manager and mode coordinator, and of a `PollerState`
record for the reconciler.  Modelling conventions:

* JavaScript truthiness tests (`!pid`, `url || null`, ...) are modelled
  by the `js*` helpers below: an optional number is falsy when absent or
  zero, an optional string when absent or empty.
* Operations that mutate the outside world take and return a `World`
  (explicit state passing); `Bool`-valued oracle fields of `World`
  stand for the outcomes of non-deterministic external actions
  (a signal raising EPERM, the Telegram API failing, spawn failing,
  the startup port probe timing out).
* Wall-clock durations are not modelled; `duration` fields are 0.
* `startCalls`, `restartCalls` and `alerts` are ghost counters that
  record how often `start`, `gatewayProcessManager.restart` and
  `notifyOwner` were invoked; no behaviour depends on them.
-/

namespace Openclaw

/-- JavaScript truthiness of an optional number: `undefined` and `0` are falsy. -/
def jsTruthyNat : Option Nat → Bool
  | none => false
  | some n => n != 0

/-- JavaScript `x || null` on an optional number. -/
def jsNatOrNull (o : Option Nat) : Option Nat :=
  if jsTruthyNat o then o else none

/-- JavaScript truthiness of an optional string: `undefined` and `""` are falsy. -/
def jsTruthyStr : Option String → Bool
  | none => false
  | some s => s != ""

/-- JavaScript `x || null` on an optional string. -/
def jsStrOrNull (o : Option String) : Option String :=
  if jsTruthyStr o then o else none

/-- JavaScript `x || d` on an optional string with a string default. -/
def jsStrOr (o : Option String) (d : String) : String :=
  if jsTruthyStr o then o.getD d else d

/-! ## Telegram webhook activity (WebhookPollerService.checkWebhookStatus) -/

/-- Payload of the Telegram `getWebhookInfo` call (source `interface WebhookInfo`).
`last_error_date` and `last_error_message` are optional fields. -/
structure WebhookInfo where
  url : String
  pending_update_count : Nat
  last_error_date : Option Nat
  last_error_message : Option String
deriving DecidableEq

/-- The activity predicate computed by `checkWebhookStatus` on a provider
response: `!!(info.url && (!info.last_error_date || info.pending_update_count === 0))`. -/
def webhookIsActive (info : WebhookInfo) : Bool :=
  (info.url != "") && (!(jsTruthyNat info.last_error_date) || (info.pending_update_count == 0))

/-- Return value of `checkWebhookStatus`. -/
structure WebhookStatus where
  isActive : Bool
  url : Option String
  pendingUpdateCount : Nat
  lastErrorDate : Option Nat
  lastErrorMessage : Option String
deriving DecidableEq

/-- Success path of `WebhookPollerService.checkWebhookStatus` on a
well-formed provider response. -/
def checkWebhookStatus (info : WebhookInfo) : WebhookStatus :=
  { isActive := webhookIsActive info
    url := jsStrOrNull (some info.url)
    pendingUpdateCount := info.pending_update_count
    lastErrorDate := info.last_error_date
    lastErrorMessage := info.last_error_message }

/-! ## Process manager world (GatewayProcessManager) -/

/-- `ps`-reported resource metrics for one pid. -/
structure ProcMetrics where
  uptime : Nat
  cpuUsage : Nat
  memoryUsage : Nat

/-- Explicit state of the outside world as seen by the process manager
and the mode coordinator. -/
structure World where
  /-- Contents of the pid file: `none` = file absent (read throws),
  `some none` = file present but not a number (`parseInt` is `NaN`),
  `some (some p)` = file records pid `p`. -/
  pidFile : Option (Option Nat)
  /-- Pids of live processes: the signal-0 probe of `isProcessRunning`
  succeeds exactly on members. -/
  alive : List Nat
  /-- Output of the process-table pattern scan (pgrep of the gateway
  command line), in pgrep order. -/
  gatewayProcs : List Nat
  /-- `ps` metrics per pid. -/
  metrics : Nat → ProcMetrics
  /-- Oracle: sending a termination signal raises a non-ESRCH error
  (e.g. EPERM); modelled as affecting SIGTERM/SIGKILL in `stop`. -/
  killRaises : Bool
  /-- Oracle: an unexpected exception inside `getStatus`'s try block. -/
  statusThrow : Bool
  /-- Oracle: pid assigned by `spawn`; `none` = spawn yields no pid. -/
  spawnPid : Option Nat
  /-- Oracle: the spawned process opens its port within the startup timeout. -/
  startupOk : Bool
  /-- Oracle: `lsof` finds a listener on the gateway port. -/
  portListening : Bool
  /-- Provider-side webhook subscription URL (Telegram state). -/
  subscriptionUrl : Option String
  /-- Bot token resolved from channel configs. -/
  botToken : Option String
  /-- Setting `production_webhook_url`. -/
  productionUrl : Option String
  /-- Oracle: Telegram API calls succeed. -/
  telegramApiOk : Bool
  /-- Stored value of the `telegram_connection_mode` setting. -/
  modeSetting : Option String
  /-- Ghost counter: invocations of `start`. -/
  startCalls : Nat

/-- Write the pid file (`savePid`). -/
def savePid (p : Nat) (w : World) : World :=
  { w with pidFile := some (some p) }

/-- Remove the pid file (`clearPidFile`; missing file errors are swallowed). -/
def clearPidFile (w : World) : World :=
  { w with pidFile := none }

/-- Effect of a delivered kill on pid `p`: it disappears from the process table. -/
def killProc (p : Nat) (w : World) : World :=
  { w with alive := w.alive.filter (· != p),
           gatewayProcs := w.gatewayProcs.filter (· != p) }

/-- Effect of spawning the gateway with pid `q`. -/
def addProc (q : Nat) (w : World) : World :=
  { w with alive := q :: w.alive, gatewayProcs := q :: w.gatewayProcs }

/-- `GatewayProcessManager.getCurrentPid`: read the pid file; if reading
throws (file absent), fall back to the pattern scan, take the last
reported pid and re-persist it. -/
def getCurrentPid (w : World) : Option Nat × World :=
  match w.pidFile with
  | some c => (c, w)
  | none =>
    match w.gatewayProcs.getLast? with
    | some p => (some p, savePid p w)
    | none => (none, w)

/-- Result shape of `stop`. -/
structure StopResult where
  success : Bool
  message : String
deriving DecidableEq

/-- `GatewayProcessManager.stop`: resolve the pid (falsy pid means "not
running"), send SIGTERM (ESRCH, i.e. a dead pid, is treated as success;
any other raise is caught by the outer handler and reported as failure),
escalate to SIGKILL on timeout, then clear the pid file. -/
def stop (w : World) : StopResult × World :=
  match getCurrentPid w with
  | (none, w1) => (⟨true, "Gateway is not running"⟩, w1)
  | (some 0, w1) => (⟨true, "Gateway is not running"⟩, w1)
  | (some (n + 1), w1) =>
    if (n + 1) ∈ w1.alive then
      if w1.killRaises then
        (⟨false, "Failed to stop Gateway"⟩, w1)
      else
        (⟨true, "Gateway stopped successfully"⟩, clearPidFile (killProc (n + 1) w1))
    else
      (⟨true, "Gateway process was not running"⟩, clearPidFile w1)

/-- Result shape of `start`. -/
structure StartResult where
  success : Bool
  pid : Option Nat
  message : String
deriving DecidableEq

/-- `GatewayProcessManager.start`: refuse if a truthy resolved pid is
alive; spawn; persist the new pid; wait for the port; on startup timeout
stop the spawned process and fail. -/
def start (w0 : World) : StartResult × World :=
  match getCurrentPid { w0 with startCalls := w0.startCalls + 1 } with
  | (curPid, w1) =>
    if jsTruthyNat curPid = true ∧ curPid.getD 0 ∈ w1.alive then
      (⟨false, curPid, "Gateway is already running"⟩, w1)
    else
      match w1.spawnPid with
      | none => (⟨false, none, "Failed to spawn Gateway process"⟩, w1)
      | some q =>
        if w1.startupOk then
          (⟨true, some q, "Gateway started successfully"⟩, savePid q (addProc q w1))
        else
          (⟨false, none, "Gateway failed to start within timeout period"⟩,
           (stop (savePid q (addProc q w1))).2)

/-- `GatewayProcessManager.healthCheck`: alive pid and listening port. -/
def healthCheck (w : World) : Bool × World :=
  match getCurrentPid w with
  | (curPid, w1) =>
    if jsTruthyNat curPid = true ∧ curPid.getD 0 ∈ w1.alive then
      (w1.portListening, w1)
    else
      (false, w1)

/-- Result shape of `restart` (source `interface RestartResult`). -/
structure RestartResult where
  success : Bool
  oldPid : Option Nat
  newPid : Option Nat
  duration : Nat
  message : String
  error : Option String
deriving DecidableEq

/-- `GatewayProcessManager.restart`: record the old pid, stop, settle,
start, settle, health-check; every phase failure is converted into a
structured failure result (the function is total: nothing is thrown). -/
def restart (w : World) : RestartResult × World :=
  match getCurrentPid w with
  | (oldPid, w1) =>
    match stop w1 with
    | (stopR, w2) =>
      if stopR.success = false then
        (⟨false, oldPid, none, 0, "Failed to stop old process", some stopR.message⟩, w2)
      else
        match start w2 with
        | (startR, w3) =>
          if startR.success = false then
            (⟨false, oldPid, none, 0, "Failed to start new process", some startR.message⟩, w3)
          else
            match healthCheck w3 with
            | (healthy, w4) =>
              if healthy = false then
                (⟨false, oldPid, startR.pid, 0,
                  "New process started but health check failed", none⟩, w4)
              else
                (⟨true, oldPid, startR.pid, 0, "Gateway restarted successfully", none⟩, w4)

/-- Return shape of `getStatus` (source `interface GatewayStatus`;
`status` is one of "running", "stopped", "error"). -/
structure GatewayStatus where
  status : String
  pid : Option Nat
  port : Nat
  uptime : Nat
  cpuUsage : Nat
  memoryUsage : Nat
  lastRestart : Option Nat
deriving DecidableEq

/-- The all-zero "stopped" status record. -/
def stoppedStatus : GatewayStatus :=
  ⟨"stopped", none, 18789, 0, 0, 0, none⟩

/-- The all-zero "error" status record (outer catch of `getStatus`). -/
def errorStatus : GatewayStatus :=
  ⟨"error", none, 18789, 0, 0, 0, none⟩

/-- `GatewayProcessManager.getStatus`: resolve the pid (falsy resolved
pid reports "stopped" without touching the pid file); a dead recorded
pid clears the pid file and reports "stopped"; a live pid reports
"running" with its `ps` metrics; an unexpected exception reports "error". -/
def getStatus (w : World) : GatewayStatus × World :=
  if w.statusThrow then (errorStatus, w)
  else
    match getCurrentPid w with
    | (none, w1) => (stoppedStatus, w1)
    | (some 0, w1) => (stoppedStatus, w1)
    | (some (n + 1), w1) =>
      if (n + 1) ∈ w1.alive then
        (⟨"running", some (n + 1), 18789, (w1.metrics (n + 1)).uptime,
          (w1.metrics (n + 1)).cpuUsage, (w1.metrics (n + 1)).memoryUsage, none⟩, w1)
      else
        (stoppedStatus, clearPidFile w1)

/-! ## Webhook reconciler state (WebhookPollerService.checkAndRestart) -/

/-- One `webhookStatusLogs` row (source `insertWebhookStatusLog` argument). -/
structure WebhookLogEntry where
  checkTimestamp : Nat
  webhookUrl : Option String
  isActive : Bool
  pendingUpdateCount : Nat
  lastErrorDate : Option Nat
  lastErrorMessage : Option String
  responseTimeMs : Nat
  actionTaken : String
deriving DecidableEq

/-- One `gatewayRestartLogs` row; `createdAt` is the row creation time in
milliseconds (the source stores a datetime and compares
`UNIX_TIMESTAMP(createdAt) * 1000`). -/
structure RestartLogEntry where
  triggerType : String
  reason : String
  oldPid : Option Nat
  newPid : Option Nat
  success : Bool
  errorMessage : Option String
  durationMs : Nat
  createdAt : Nat
deriving DecidableEq

/-- Database/history state of the reconciler, with ghost counters. -/
structure PollerState where
  /-- `webhookStatusLogs` rows, most recent first. -/
  webhookLogs : List WebhookLogEntry
  /-- `gatewayRestartLogs` rows, most recent first. -/
  restartLogs : List RestartLogEntry
  /-- Ghost counter: `notifyOwner` invocations. -/
  alerts : Nat
  /-- Ghost counter: `gatewayProcessManager.restart` invocations. -/
  restartCalls : Nat
deriving DecidableEq

/-- `db.getRecentRestartAttempts`: number of `gatewayRestartLogs` rows
whose creation time lies within the window ending now — every row counts,
regardless of `triggerType`. -/
def getRecentRestartAttempts (windowMinutes now : Nat) (logs : List RestartLogEntry) : Nat :=
  (logs.filter (fun r => now - windowMinutes * 60 * 1000 ≤ r.createdAt)).length

/-- Inputs resolved by one reconciliation cycle: the webhook status
returned by `checkWebhookStatus`, the clock, the measured response time,
the two settings, and the outcome of `gatewayProcessManager.restart`
should it be invoked (a thrown restart is already converted into a
failure result by the poller's catch block). -/
structure CycleInput where
  status : WebhookStatus
  now : Nat
  responseTime : Nat
  autoRestartEnabled : Bool
  maxAttempts : Nat
  restartOutcome : RestartResult
deriving DecidableEq

/-- The status-log row appended unconditionally at the top of a cycle. -/
def mkNoneLog (inp : CycleInput) : WebhookLogEntry :=
  ⟨inp.now, jsStrOrNull inp.status.url, inp.status.isActive, inp.status.pendingUpdateCount,
   jsNatOrNull inp.status.lastErrorDate, jsStrOrNull inp.status.lastErrorMessage,
   inp.responseTime, "none"⟩

/-- The status-log row appended by a rate-limited cycle. -/
def mkAlertLog (inp : CycleInput) : WebhookLogEntry :=
  ⟨inp.now, jsStrOrNull inp.status.url, false, inp.status.pendingUpdateCount,
   jsNatOrNull inp.status.lastErrorDate, some "Max restart attempts reached", 0, "alert"⟩

/-- The status-log row appended after a successful restart. -/
def mkRestartActionLog (inp : CycleInput) : WebhookLogEntry :=
  ⟨inp.now, jsStrOrNull inp.status.url, false, inp.status.pendingUpdateCount,
   jsNatOrNull inp.status.lastErrorDate, some "Restarted Gateway",
   inp.restartOutcome.duration, "restart"⟩

/-- The `gatewayRestartLogs` row appended for every restart attempt of a cycle. -/
def mkRestartLog (inp : CycleInput) : RestartLogEntry :=
  ⟨"webhook_check",
   "Webhook inactive: " ++ jsStrOr inp.status.lastErrorMessage "No error message",
   jsNatOrNull inp.restartOutcome.oldPid, jsNatOrNull inp.restartOutcome.newPid,
   inp.restartOutcome.success, jsStrOrNull inp.restartOutcome.error,
   inp.restartOutcome.duration, inp.now⟩

/-- Append the unconditional per-cycle status log (action "none"). -/
def logNone (inp : CycleInput) (st : PollerState) : PollerState :=
  { st with webhookLogs := mkNoneLog inp :: st.webhookLogs }

/-- Rate-limited escalation: notify the owner and log action "alert". -/
def logAlert (inp : CycleInput) (st : PollerState) : PollerState :=
  { st with alerts := st.alerts + 1, webhookLogs := mkAlertLog inp :: st.webhookLogs }

/-- Invoke restart (ghost-counted) and append its `gatewayRestartLogs` row. -/
def recordRestart (inp : CycleInput) (st : PollerState) : PollerState :=
  { st with restartCalls := st.restartCalls + 1, restartLogs := mkRestartLog inp :: st.restartLogs }

/-- After a successful restart, log action "restart". -/
def logRestartAction (inp : CycleInput) (st : PollerState) : PollerState :=
  { st with webhookLogs := mkRestartActionLog inp :: st.webhookLogs }

/-- `WebhookPollerService.checkAndRestart`: one reconciliation cycle.
Always log the check with action "none"; if inactive and auto-restart is
enabled: rate-limit against the 5-minute restart-attempt count (alerting
when exhausted), otherwise invoke restart, log the attempt, and on
success additionally log action "restart".  (The source computes the
attempt count after the first status-log insert, which does not touch the
`gatewayRestartLogs` table, so it is counted over `st.restartLogs`.) -/
def checkAndRestart (inp : CycleInput) (st : PollerState) : PollerState :=
  if inp.status.isActive then logNone inp st
  else if !inp.autoRestartEnabled then logNone inp st
  else if inp.maxAttempts ≤ getRecentRestartAttempts 5 inp.now st.restartLogs then
    logAlert inp (logNone inp st)
  else if inp.restartOutcome.success then
    logRestartAction inp (recordRestart inp (logNone inp st))
  else
    recordRestart inp (logNone inp st)

/-- A run of reconciliation cycles, oldest first. -/
def runCycles (cycles : List CycleInput) (st : PollerState) : PollerState :=
  cycles.foldl (fun s c => checkAndRestart c s) st

/-! ## Mode coordinator (setConnectionMode) and webhook management -/

/-- Result shape of `applyWebhook` / `deleteWebhook`. -/
structure ApiResult where
  success : Bool
  message : String
deriving DecidableEq

/-- `webhookPoller.applyWebhook`: push the production URL to the provider;
fails cleanly when the URL or the bot token is unset. -/
def applyWebhook (w : World) : ApiResult × World :=
  if jsTruthyStr w.productionUrl = false then
    (⟨false, "Production webhook URL not configured. Please set it first."⟩, w)
  else if jsTruthyStr w.botToken = false then
    (⟨false, "Bot token not found in config. Please configure Telegram channel first."⟩, w)
  else if w.telegramApiOk then
    (⟨true, "Webhook applied successfully"⟩,
     { w with subscriptionUrl := some (w.productionUrl.getD "") })
  else
    (⟨false, "Telegram API error"⟩, w)

/-- `webhookPoller.deleteWebhook`: remove the provider-side subscription. -/
def deleteWebhook (w : World) : ApiResult × World :=
  if jsTruthyStr w.botToken = false then
    (⟨false, "Bot token not found in config. Please configure Telegram channel first."⟩, w)
  else if w.telegramApiOk then
    (⟨true, "Webhook deleted successfully. Gateway can now use getUpdates polling."⟩,
     { w with subscriptionUrl := none })
  else
    (⟨false, "Telegram API error"⟩, w)

/-- Connection modes accepted by the mutation input schema. -/
inductive Mode
  | gateway
  | webhook
deriving DecidableEq

/-- String form of a mode (the persisted setting value). -/
def modeStr : Mode → String
  | .gateway => "gateway"
  | .webhook => "webhook"

/-- Result shape of the `setConnectionMode` mutation. -/
structure SetModeResult where
  success : Bool
  message : String
deriving DecidableEq

/-- The `setConnectionMode` tRPC mutation: no-op when the persisted mode
already equals the target; otherwise run the two legs of the transition
(each leg's exceptions are caught and only logged) and persist the new
mode unconditionally at the end. -/
def setConnectionMode (w : World) (target : Mode) : SetModeResult × World :=
  if w.modeSetting.getD "webhook" == modeStr target then
    (⟨true, "Mode unchanged"⟩, w)
  else
    match target with
    | .webhook =>
      (⟨true, "Switched mode"⟩,
       { (applyWebhook (stop w).2).2 with modeSetting := some (modeStr target) })
    | .gateway =>
      (⟨true, "Switched mode"⟩,
       { (start (deleteWebhook w).2).2 with modeSetting := some (modeStr target) })

/-! ## Branch-equation lemmas (unfolding the source functions case by case) -/

theorem getCurrentPid_eq_file (w : World) (c : Option Nat) (hpf : w.pidFile = some c) :
    getCurrentPid w = (c, w) := by
  unfold getCurrentPid
  rw [hpf]

theorem getCurrentPid_eq_scan (w : World) (p : Nat) (hpf : w.pidFile = none)
    (hl : w.gatewayProcs.getLast? = some p) :
    getCurrentPid w = (some p, savePid p w) := by
  unfold getCurrentPid
  rw [hpf, hl]

theorem getCurrentPid_eq_none (w : World) (hpf : w.pidFile = none)
    (hl : w.gatewayProcs.getLast? = none) :
    getCurrentPid w = (none, w) := by
  unfold getCurrentPid
  rw [hpf, hl]

/-- `getCurrentPid` touches only the pid file: every other field survives. -/
theorem getCurrentPid_snd_eq (w : World) :
    (getCurrentPid w).2 = w ∨ ∃ p, (getCurrentPid w).2 = savePid p w := by
  unfold getCurrentPid
  rcases hpf : w.pidFile with _ | c
  · rcases hl : w.gatewayProcs.getLast? with _ | p
    · exact Or.inl rfl
    · exact Or.inr ⟨p, rfl⟩
  · exact Or.inl rfl

theorem stop_eq_none (w w1 : World) (hg : getCurrentPid w = (none, w1)) :
    stop w = (⟨true, "Gateway is not running"⟩, w1) := by
  unfold stop
  rw [hg]

theorem stop_eq_zero (w w1 : World) (hg : getCurrentPid w = (some 0, w1)) :
    stop w = (⟨true, "Gateway is not running"⟩, w1) := by
  unfold stop
  rw [hg]

theorem stop_eq_succ (w w1 : World) (n : Nat) (hg : getCurrentPid w = (some (n + 1), w1)) :
    stop w =
      if (n + 1) ∈ w1.alive then
        if w1.killRaises then (⟨false, "Failed to stop Gateway"⟩, w1)
        else (⟨true, "Gateway stopped successfully"⟩, clearPidFile (killProc (n + 1) w1))
      else (⟨true, "Gateway process was not running"⟩, clearPidFile w1) := by
  unfold stop
  rw [hg]

/-- `stop` never touches the subscription URL or the ghost start counter. -/
theorem stop_fields (w : World) :
    (stop w).2.subscriptionUrl = w.subscriptionUrl ∧
    (stop w).2.startCalls = w.startCalls := by
  rcases hg : getCurrentPid w with ⟨p?, w1⟩
  have hw1 : w1.subscriptionUrl = w.subscriptionUrl ∧ w1.startCalls = w.startCalls := by
    rcases getCurrentPid_snd_eq w with h | ⟨p, h⟩ <;> rw [hg] at h <;> simp at h <;> rw [h] <;>
      simp [savePid]
  rcases p? with _ | n
  · rw [stop_eq_none w w1 hg]
    exact hw1
  · rcases n with _ | n
    · rw [stop_eq_zero w w1 hg]
      exact hw1
    · rw [stop_eq_succ w w1 n hg]
      split_ifs <;> exact hw1

/-- A successful `stop` leaves the (nonzero) pid it resolved dead. -/
theorem stop_success_not_alive (w : World) (p : Nat) (hp : 0 < p)
    (hres : (getCurrentPid w).1 = some p) (hs : (stop w).1.success = true) :
    p ∉ (stop w).2.alive := by
  rcases hg : getCurrentPid w with ⟨p?, w1⟩
  rw [hg] at hres
  simp at hres
  subst hres
  rcases p with _ | n
  · omega
  · rw [stop_eq_succ w w1 n hg] at hs ⊢
    by_cases hmem : (n + 1) ∈ w1.alive
    · rw [if_pos hmem] at hs ⊢
      by_cases hk : w1.killRaises
      · rw [if_pos hk] at hs
        simp at hs
      · rw [if_neg hk] at hs ⊢
        simp [clearPidFile, killProc, List.mem_filter]
    · rw [if_neg hmem] at hs ⊢
      simpa [clearPidFile] using hmem

/-- `applyWebhook` only (possibly) sets the subscription URL. -/
theorem applyWebhook_fields (w : World) :
    (applyWebhook w).2.alive = w.alive ∧
    (applyWebhook w).2.pidFile = w.pidFile := by
  unfold applyWebhook
  split_ifs <;> simp

/-- A successful `deleteWebhook` clears the provider subscription URL. -/
theorem deleteWebhook_success_clears (w : World)
    (h : (deleteWebhook w).1.success = true) :
    (deleteWebhook w).2.subscriptionUrl = none := by
  unfold deleteWebhook at h ⊢
  split_ifs at h ⊢ <;> simp_all

/-- Branch equation for `start` once the pid resolution is fixed. -/
theorem start_eq (w : World) (curPid : Option Nat) (w1 : World)
    (hg : getCurrentPid { w with startCalls := w.startCalls + 1 } = (curPid, w1)) :
    start w =
      if jsTruthyNat curPid = true ∧ curPid.getD 0 ∈ w1.alive then
        (⟨false, curPid, "Gateway is already running"⟩, w1)
      else
        match w1.spawnPid with
        | none => (⟨false, none, "Failed to spawn Gateway process"⟩, w1)
        | some q =>
          if w1.startupOk then
            (⟨true, some q, "Gateway started successfully"⟩, savePid q (addProc q w1))
          else
            (⟨false, none, "Gateway failed to start within timeout period"⟩,
             (stop (savePid q (addProc q w1))).2) := by
  unfold start
  rw [hg]

/-- `start` never touches the subscription URL. -/
theorem start_subscriptionUrl (w : World) :
    (start w).2.subscriptionUrl = w.subscriptionUrl := by
  rcases hg : getCurrentPid { w with startCalls := w.startCalls + 1 } with ⟨curPid, w1⟩
  have hw1 : w1.subscriptionUrl = w.subscriptionUrl := by
    rcases getCurrentPid_snd_eq { w with startCalls := w.startCalls + 1 } with h | ⟨p, h⟩ <;>
      rw [hg] at h <;> simp at h <;> rw [h] <;> simp [savePid]
  rw [start_eq w curPid w1 hg]
  split
  · exact hw1
  · split
    · exact hw1
    · split
      · simpa [savePid, addProc] using hw1
      · calc (stop (savePid _ (addProc _ w1))).2.subscriptionUrl
            = (savePid _ (addProc _ w1)).subscriptionUrl := (stop_fields _).1
          _ = w.subscriptionUrl := by simpa [savePid, addProc] using hw1

theorem getCurrentPid_startCalls (w : World) :
    (getCurrentPid w).2.startCalls = w.startCalls := by
  rcases getCurrentPid_snd_eq w with h | ⟨p, h⟩ <;> rw [h] <;> simp [savePid]

theorem getCurrentPid_alive (w : World) :
    (getCurrentPid w).2.alive = w.alive := by
  rcases getCurrentPid_snd_eq w with h | ⟨p, h⟩ <;> rw [h] <;> simp [savePid]

theorem getCurrentPid_gatewayProcs (w : World) :
    (getCurrentPid w).2.gatewayProcs = w.gatewayProcs := by
  rcases getCurrentPid_snd_eq w with h | ⟨p, h⟩ <;> rw [h] <;> simp [savePid]

theorem getStatus_eq_throw (w : World) (ht : w.statusThrow = true) :
    getStatus w = (errorStatus, w) := by
  unfold getStatus
  rw [if_pos ht]

theorem getStatus_eq_none (w w1 : World) (ht : w.statusThrow = false)
    (hg : getCurrentPid w = (none, w1)) :
    getStatus w = (stoppedStatus, w1) := by
  unfold getStatus
  rw [if_neg (by simp [ht]), hg]

theorem getStatus_eq_zero (w w1 : World) (ht : w.statusThrow = false)
    (hg : getCurrentPid w = (some 0, w1)) :
    getStatus w = (stoppedStatus, w1) := by
  unfold getStatus
  rw [if_neg (by simp [ht]), hg]

theorem getStatus_eq_succ (w w1 : World) (n : Nat) (ht : w.statusThrow = false)
    (hg : getCurrentPid w = (some (n + 1), w1)) :
    getStatus w =
      if (n + 1) ∈ w1.alive then
        (⟨"running", some (n + 1), 18789, (w1.metrics (n + 1)).uptime,
          (w1.metrics (n + 1)).cpuUsage, (w1.metrics (n + 1)).memoryUsage, none⟩, w1)
      else
        (stoppedStatus, clearPidFile w1) := by
  unfold getStatus
  rw [if_neg (by simp [ht]), hg]

theorem restart_eq1 (w : World) (oldPid : Option Nat) (w1 : World)
    (hg : getCurrentPid w = (oldPid, w1)) :
    restart w =
      match stop w1 with
      | (stopR, w2) =>
        if stopR.success = false then
          (⟨false, oldPid, none, 0, "Failed to stop old process", some stopR.message⟩, w2)
        else
          match start w2 with
          | (startR, w3) =>
            if startR.success = false then
              (⟨false, oldPid, none, 0, "Failed to start new process", some startR.message⟩, w3)
            else
              match healthCheck w3 with
              | (healthy, w4) =>
                if healthy = false then
                  (⟨false, oldPid, startR.pid, 0,
                    "New process started but health check failed", none⟩, w4)
                else
                  (⟨true, oldPid, startR.pid, 0, "Gateway restarted successfully", none⟩, w4) := by
  unfold restart
  rw [hg]

theorem restart_eq2 (w : World) (oldPid : Option Nat) (w1 : World)
    (stopR : StopResult) (w2 : World)
    (hg : getCurrentPid w = (oldPid, w1)) (hs : stop w1 = (stopR, w2)) :
    restart w =
      if stopR.success = false then
        (⟨false, oldPid, none, 0, "Failed to stop old process", some stopR.message⟩, w2)
      else
        match start w2 with
        | (startR, w3) =>
          if startR.success = false then
            (⟨false, oldPid, none, 0, "Failed to start new process", some startR.message⟩, w3)
          else
            match healthCheck w3 with
            | (healthy, w4) =>
              if healthy = false then
                (⟨false, oldPid, startR.pid, 0,
                  "New process started but health check failed", none⟩, w4)
              else
                (⟨true, oldPid, startR.pid, 0, "Gateway restarted successfully", none⟩, w4) := by
  rw [restart_eq1 w oldPid w1 hg, hs]

theorem restart_eq3 (w : World) (oldPid : Option Nat) (w1 : World)
    (stopR : StopResult) (w2 : World) (startR : StartResult) (w3 : World)
    (hg : getCurrentPid w = (oldPid, w1)) (hs : stop w1 = (stopR, w2))
    (hst : start w2 = (startR, w3)) :
    restart w =
      if stopR.success = false then
        (⟨false, oldPid, none, 0, "Failed to stop old process", some stopR.message⟩, w2)
      else if startR.success = false then
        (⟨false, oldPid, none, 0, "Failed to start new process", some startR.message⟩, w3)
      else
        match healthCheck w3 with
        | (healthy, w4) =>
          if healthy = false then
            (⟨false, oldPid, startR.pid, 0,
              "New process started but health check failed", none⟩, w4)
          else
            (⟨true, oldPid, startR.pid, 0, "Gateway restarted successfully", none⟩, w4) := by
  rw [restart_eq2 w oldPid w1 stopR w2 hg hs, hst]

theorem restart_eq4 (w : World) (oldPid : Option Nat) (w1 : World)
    (stopR : StopResult) (w2 : World) (startR : StartResult) (w3 : World)
    (healthy : Bool) (w4 : World)
    (hg : getCurrentPid w = (oldPid, w1)) (hs : stop w1 = (stopR, w2))
    (hst : start w2 = (startR, w3)) (hh : healthCheck w3 = (healthy, w4)) :
    restart w =
      if stopR.success = false then
        (⟨false, oldPid, none, 0, "Failed to stop old process", some stopR.message⟩, w2)
      else if startR.success = false then
        (⟨false, oldPid, none, 0, "Failed to start new process", some startR.message⟩, w3)
      else if healthy = false then
        (⟨false, oldPid, startR.pid, 0,
          "New process started but health check failed", none⟩, w4)
      else
        (⟨true, oldPid, startR.pid, 0, "Gateway restarted successfully", none⟩, w4) := by
  rw [restart_eq3 w oldPid w1 stopR w2 startR w3 hg hs hst, hh]

/-! ## Branch lemmas for the reconciliation cycle -/

theorem checkAndRestart_eq_active (inp : CycleInput) (st : PollerState)
    (hA : inp.status.isActive = true) :
    checkAndRestart inp st = logNone inp st := by
  unfold checkAndRestart
  rw [if_pos hA]

theorem checkAndRestart_eq_disabled (inp : CycleInput) (st : PollerState)
    (hA : inp.status.isActive = false) (hE : inp.autoRestartEnabled = false) :
    checkAndRestart inp st = logNone inp st := by
  unfold checkAndRestart
  rw [if_neg (by simp [hA]), if_pos (by simp [hE])]

theorem checkAndRestart_eq_alert (inp : CycleInput) (st : PollerState)
    (hA : inp.status.isActive = false) (hE : inp.autoRestartEnabled = true)
    (hge : inp.maxAttempts ≤ getRecentRestartAttempts 5 inp.now st.restartLogs) :
    checkAndRestart inp st = logAlert inp (logNone inp st) := by
  unfold checkAndRestart
  rw [if_neg (by simp [hA]), if_neg (by simp [hE]), if_pos hge]

theorem checkAndRestart_eq_restart (inp : CycleInput) (st : PollerState)
    (hA : inp.status.isActive = false) (hE : inp.autoRestartEnabled = true)
    (hlt : getRecentRestartAttempts 5 inp.now st.restartLogs < inp.maxAttempts) :
    checkAndRestart inp st =
      if inp.restartOutcome.success then
        logRestartAction inp (recordRestart inp (logNone inp st))
      else
        recordRestart inp (logNone inp st) := by
  unfold checkAndRestart
  rw [if_neg (by simp [hA]), if_neg (by simp [hE]), if_neg (by omega)]

/-- A restarting cycle, regardless of the restart outcome: the ghost
counter and the restart-log table each grow by exactly the one attempt. -/
theorem checkAndRestart_restart_effects (inp : CycleInput) (st : PollerState)
    (hA : inp.status.isActive = false) (hE : inp.autoRestartEnabled = true)
    (hlt : getRecentRestartAttempts 5 inp.now st.restartLogs < inp.maxAttempts) :
    (checkAndRestart inp st).restartCalls = st.restartCalls + 1 ∧
    (checkAndRestart inp st).restartLogs = mkRestartLog inp :: st.restartLogs ∧
    (checkAndRestart inp st).alerts = st.alerts := by
  rw [checkAndRestart_eq_restart inp st hA hE hlt]
  split <;> exact ⟨rfl, rfl, rfl⟩

/-- An alerted (rate-limited) cycle: no restart, one alert, tables otherwise unchanged. -/
theorem checkAndRestart_alert_effects (inp : CycleInput) (st : PollerState)
    (hA : inp.status.isActive = false) (hE : inp.autoRestartEnabled = true)
    (hge : inp.maxAttempts ≤ getRecentRestartAttempts 5 inp.now st.restartLogs) :
    (checkAndRestart inp st).restartCalls = st.restartCalls ∧
    (checkAndRestart inp st).restartLogs = st.restartLogs ∧
    (checkAndRestart inp st).alerts = st.alerts + 1 ∧
    (checkAndRestart inp st).webhookLogs = mkAlertLog inp :: mkNoneLog inp :: st.webhookLogs := by
  rw [checkAndRestart_eq_alert inp st hA hE hge]
  exact ⟨rfl, rfl, rfl, rfl⟩

/-! ## Counting lemmas for the rate limiter -/

theorem getRecentRestartAttempts_nil (wm now : Nat) :
    getRecentRestartAttempts wm now [] = 0 := rfl

theorem getRecentRestartAttempts_cons (wm now : Nat) (r : RestartLogEntry)
    (logs : List RestartLogEntry) :
    getRecentRestartAttempts wm now (r :: logs) =
      (if now - wm * 60 * 1000 ≤ r.createdAt then 1 else 0) +
        getRecentRestartAttempts wm now logs := by
  by_cases h : now - wm * 60 * 1000 ≤ r.createdAt
  · rw [if_pos h]
    unfold getRecentRestartAttempts
    rw [List.filter_cons, if_pos (by simpa using h)]
    simp [Nat.add_comm]
  · rw [if_neg h]
    unfold getRecentRestartAttempts
    rw [List.filter_cons, if_neg (by simpa using h)]
    simp

/-- When every stored attempt lies inside the window, all of them count. -/
theorem getRecentRestartAttempts_all (wm now : Nat) (logs : List RestartLogEntry)
    (h : ∀ r ∈ logs, now - wm * 60 * 1000 ≤ r.createdAt) :
    getRecentRestartAttempts wm now logs = logs.length := by
  induction logs with
  | nil => rfl
  | cons r rest ih =>
    rw [getRecentRestartAttempts_cons, if_pos (h r (by simp)),
        ih (fun x hx => h x (by simp [hx]))]
    simp [Nat.add_comm]

/-! ## Concrete states for witnesses and counterexamples -/

/-- A quiescent world: nothing recorded, nothing running, Telegram API up. -/
def sampleWorld : World :=
  { pidFile := none
    alive := []
    gatewayProcs := []
    metrics := fun _ => ⟨0, 0, 0⟩
    killRaises := false
    statusThrow := false
    spawnPid := none
    startupOk := false
    portListening := false
    subscriptionUrl := none
    botToken := none
    productionUrl := none
    telegramApiOk := true
    modeSetting := none
    startCalls := 0 }

/-- An empty history sink. -/
def samplePoller : PollerState := ⟨[], [], 0, 0⟩

/-! ## Claim C3 -/

/-- Claim C3: `restart` is a total function into structured `RestartResult`
values (the embedding returns a plain result, never an exception); on any
failure the result carries a non-empty message, and whenever the stop
phase fails, the result identifies the stop phase, carries the stop
failure as `error`, reports the pre-restart pid as `oldPid` and no
`newPid`, and `start` is never invoked (the ghost `startCalls` counter is
unchanged). -/
theorem restart_structured (w : World) :
    ((restart w).1.success = false → (restart w).1.message ≠ "") ∧
    ((stop (getCurrentPid w).2).1.success = false →
      (restart w).1.success = false ∧
      (restart w).1.message = "Failed to stop old process" ∧
      (restart w).1.error = some (stop (getCurrentPid w).2).1.message ∧
      (restart w).1.oldPid = (getCurrentPid w).1 ∧
      (restart w).1.newPid = none ∧
      (restart w).2.startCalls = w.startCalls) := by
  rcases hg : getCurrentPid w with ⟨oldPid, w1⟩
  rcases hs : stop w1 with ⟨stopR, w2⟩
  rcases hst : start w2 with ⟨startR, w3⟩
  rcases hh : healthCheck w3 with ⟨healthy, w4⟩
  have e := restart_eq4 w oldPid w1 stopR w2 startR w3 healthy w4 hg hs hst hh
  have hw1s : w1.startCalls = w.startCalls := by
    have h := getCurrentPid_startCalls w
    rw [hg] at h
    exact h
  have hw2s : w2.startCalls = w.startCalls := by
    have h := (stop_fields w1).2
    rw [hs] at h
    rw [h, hw1s]
  constructor
  · intro hfail
    rw [e] at hfail ⊢
    split_ifs at hfail ⊢ <;> simp_all
  · intro hsf
    dsimp only at hsf
    rw [e, if_pos hsf]
    exact ⟨rfl, rfl, rfl, rfl, rfl, hw2s⟩

/-- World in which the stop phase of a restart fails: the recorded pid 7
is alive but signalling it raises. -/
def stopFailWorld : World :=
  { sampleWorld with
    pidFile := some (some 7)
    alive := [7]
    killRaises := true }

/-- Witness for C3 at `stopFailWorld`. -/
theorem restart_structured_witness :
    (restart stopFailWorld).1.success = false ∧
    (restart stopFailWorld).1.message = "Failed to stop old process" ∧
    (restart stopFailWorld).1.error = some (stop (getCurrentPid stopFailWorld).2).1.message ∧
    (restart stopFailWorld).1.oldPid = (getCurrentPid stopFailWorld).1 ∧
    (restart stopFailWorld).1.newPid = none ∧
    (restart stopFailWorld).2.startCalls = stopFailWorld.startCalls :=
  (restart_structured stopFailWorld).2 (by decide)

/-! ## Claim C4 -/

/-- Claim C4 (counterexample): the provider response with a non-empty URL,
a recorded last-error date of value 0 and a nonzero pending count is
judged ACTIVE by the code (JavaScript treats `last_error_date = 0` as
falsy), while the claim as stated — active iff non-empty URL and (no
recorded last-error date or pending count zero) — judges it inactive. -/
theorem webhook_active_cex :
    (checkWebhookStatus ⟨"https://example.org/hook", 7, some 0, some "boom"⟩).isActive = true ∧
    ¬("https://example.org/hook" = "" ∨
      ((some 0 : Option Nat) = none ∨ (7 : Nat) = 0)) := by
  decide

/-- Claim C4 (amended): the subscription is judged active iff the URL is
non-empty AND (the last-error date is absent or zero OR the pending count
is zero); in particular a non-empty URL with a nonzero last-error date
and a nonzero pending count is judged inactive. -/
theorem webhook_active_iff (info : WebhookInfo) :
    (checkWebhookStatus info).isActive = true ↔
      (info.url ≠ "" ∧
        ((info.last_error_date = none ∨ info.last_error_date = some 0) ∨
          info.pending_update_count = 0)) := by
  rcases info with ⟨u, pc, led, lem⟩
  simp only [checkWebhookStatus, webhookIsActive, jsTruthyNat]
  rcases led with _ | n
  · simp [Bool.and_eq_true, Bool.or_eq_true]
  · rcases n with _ | n <;>
      simp [Bool.and_eq_true, Bool.or_eq_true, Nat.succ_ne_zero]

/-! ## Claim C5 -/

/-- Claim C5: calling `stop` with no recorded pid (pid file absent and
the pattern scan empty) or with a recorded pid whose process is dead
returns success, leaves the process table untouched, and a repeated
`stop` (when no pattern-scan match exists) is equally safe. -/
theorem stop_idempotent (w : World)
    (h : (w.pidFile = none ∧ w.gatewayProcs = []) ∨
         (∃ p, w.pidFile = some (some p) ∧ p ∉ w.alive)) :
    (stop w).1.success = true ∧
    (stop w).2.alive = w.alive ∧
    (stop w).2.gatewayProcs = w.gatewayProcs ∧
    (w.gatewayProcs = [] →
      (stop (stop w).2).1.success = true ∧ (stop (stop w).2).2.alive = w.alive) := by
  rcases h with ⟨hpf, hgw⟩ | ⟨p, hpf, hdead⟩
  · have hg : getCurrentPid w = (none, w) :=
      getCurrentPid_eq_none w hpf (by rw [hgw]; rfl)
    rw [stop_eq_none w w hg]
    refine ⟨rfl, rfl, rfl, fun _ => ?_⟩
    dsimp only
    rw [stop_eq_none w w hg]
    exact ⟨rfl, rfl⟩
  · have hg : getCurrentPid w = (some p, w) := getCurrentPid_eq_file w (some p) hpf
    rcases p with _ | n
    · rw [stop_eq_zero w w hg]
      refine ⟨rfl, rfl, rfl, fun _ => ?_⟩
      dsimp only
      rw [stop_eq_zero w w hg]
      exact ⟨rfl, rfl⟩
    · rw [stop_eq_succ w w n hg, if_neg hdead]
      refine ⟨rfl, rfl, rfl, fun hgw => ?_⟩
      dsimp only
      have hg2 : getCurrentPid (clearPidFile w) = (none, clearPidFile w) :=
        getCurrentPid_eq_none (clearPidFile w) rfl (by simp [clearPidFile, hgw])
      rw [stop_eq_none _ _ hg2]
      exact ⟨rfl, rfl⟩

/-- World with a recorded but dead pid. -/
def deadPidWorld : World := { sampleWorld with pidFile := some (some 9) }

/-- Witness for C5 at `deadPidWorld`. -/
theorem stop_idempotent_witness :
    (stop deadPidWorld).1.success = true ∧
    (stop deadPidWorld).2.alive = deadPidWorld.alive ∧
    (stop deadPidWorld).2.gatewayProcs = deadPidWorld.gatewayProcs ∧
    (deadPidWorld.gatewayProcs = [] →
      (stop (stop deadPidWorld).2).1.success = true ∧
      (stop (stop deadPidWorld).2).2.alive = deadPidWorld.alive) :=
  stop_idempotent deadPidWorld (Or.inr ⟨9, rfl, by decide⟩)

/-! ## Claim C7 -/

/-- Claim C7: with the pid file absent but a live gateway process
discoverable by the pattern scan, `getStatus` reports "running" with the
discovered pid and rewrites the pid file; with a recorded pid whose
process is dead, `getStatus` clears the pid record and reports "stopped"
(not "error"). -/
theorem getStatus_self_heal (w : World) (p : Nat) (hthrow : w.statusThrow = false) :
    (w.pidFile = none → w.gatewayProcs.getLast? = some p → p ∈ w.alive → 0 < p →
      (getStatus w).1.status = "running" ∧ (getStatus w).1.pid = some p ∧
      (getStatus w).2.pidFile = some (some p)) ∧
    (w.pidFile = some (some p) → p ∉ w.alive → 0 < p →
      (getStatus w).1.status = "stopped" ∧ (getStatus w).1.pid = none ∧
      (getStatus w).2.pidFile = none) := by
  constructor
  · intro hpf hl hmem hp
    obtain ⟨n, rfl⟩ : ∃ n, p = n + 1 := ⟨p - 1, by omega⟩
    have hg : getCurrentPid w = (some (n + 1), savePid (n + 1) w) :=
      getCurrentPid_eq_scan w (n + 1) hpf hl
    rw [getStatus_eq_succ w (savePid (n + 1) w) n hthrow hg,
        if_pos (show (n + 1) ∈ (savePid (n + 1) w).alive from hmem)]
    exact ⟨rfl, rfl, rfl⟩
  · intro hpf hdead hp
    obtain ⟨n, rfl⟩ : ∃ n, p = n + 1 := ⟨p - 1, by omega⟩
    have hg : getCurrentPid w = (some (n + 1), w) := getCurrentPid_eq_file w _ hpf
    rw [getStatus_eq_succ w w n hthrow hg, if_neg hdead]
    exact ⟨rfl, rfl, rfl⟩

/-- World with a deleted pid file but a live discoverable gateway (pid 3). -/
def healWorld : World := { sampleWorld with gatewayProcs := [3], alive := [3] }

/-- Witness for C7: self-healing at `healWorld`, dead-pid clearing at
`deadPidWorld`. -/
theorem getStatus_self_heal_witness :
    ((getStatus healWorld).1.status = "running" ∧
     (getStatus healWorld).1.pid = some 3 ∧
     (getStatus healWorld).2.pidFile = some (some 3)) ∧
    ((getStatus deadPidWorld).1.status = "stopped" ∧
     (getStatus deadPidWorld).1.pid = none ∧
     (getStatus deadPidWorld).2.pidFile = none) :=
  ⟨(getStatus_self_heal healWorld 3 (by decide)).1 rfl (by decide) (by decide) (by decide),
   (getStatus_self_heal deadPidWorld 9 (by decide)).2 rfl (by decide) (by decide)⟩

/-! ## Claim C8 -/

/-- Claim C8: in a cycle where the webhook is inactive but the
`auto_restart_enabled` setting resolves to false, `checkAndRestart` never
invokes restart and takes no corrective action — whatever the restart
history: only the unconditional "none" status log is appended. -/
theorem auto_restart_override (inp : CycleInput) (st : PollerState)
    (hA : inp.status.isActive = false) (hE : inp.autoRestartEnabled = false) :
    (checkAndRestart inp st).restartCalls = st.restartCalls ∧
    (checkAndRestart inp st).restartLogs = st.restartLogs ∧
    (checkAndRestart inp st).alerts = st.alerts ∧
    (checkAndRestart inp st).webhookLogs = mkNoneLog inp :: st.webhookLogs := by
  rw [checkAndRestart_eq_disabled inp st hA hE]
  exact ⟨rfl, rfl, rfl, rfl⟩

/-- An inactive-webhook cycle with auto-restart disabled. -/
def disabledCycle : CycleInput :=
  ⟨⟨false, some "https://h/w", 4, some 111, some "err"⟩, 1000000, 10, false, 3,
   ⟨true, some 1, some 2, 5, "ok", none⟩⟩

/-- A history already holding five restart attempts inside the window. -/
def busyHistory : PollerState :=
  ⟨[], List.replicate 5 ⟨"manual", "r", none, none, true, none, 0, 1000000⟩, 0, 0⟩

/-- Witness for C8 at `disabledCycle`/`busyHistory`. -/
theorem auto_restart_override_witness :
    (checkAndRestart disabledCycle busyHistory).restartCalls = busyHistory.restartCalls ∧
    (checkAndRestart disabledCycle busyHistory).restartLogs = busyHistory.restartLogs ∧
    (checkAndRestart disabledCycle busyHistory).alerts = busyHistory.alerts ∧
    (checkAndRestart disabledCycle busyHistory).webhookLogs =
      mkNoneLog disabledCycle :: busyHistory.webhookLogs :=
  auto_restart_override disabledCycle busyHistory (by decide) (by decide)

/-! ## Claim C10 -/

/-- Claim C10: every `GatewayStatus` returned by `getStatus` satisfies
status = "running" iff pid is non-null, and in the non-running
("stopped"/"error") cases pid is null and uptime, cpuUsage and
memoryUsage are all zero. -/
theorem getStatus_pid_invariant (w : World) :
    ((getStatus w).1.status = "running" ↔ (getStatus w).1.pid ≠ none) ∧
    ((getStatus w).1.status ≠ "running" →
      (getStatus w).1.pid = none ∧ (getStatus w).1.uptime = 0 ∧
      (getStatus w).1.cpuUsage = 0 ∧ (getStatus w).1.memoryUsage = 0) := by
  by_cases ht : w.statusThrow = true
  · rw [getStatus_eq_throw w ht]
    exact ⟨by simp [errorStatus], fun _ => ⟨rfl, rfl, rfl, rfl⟩⟩
  · have ht' : w.statusThrow = false := by simpa using ht
    rcases hg : getCurrentPid w with ⟨p?, w1⟩
    rcases p? with _ | n
    · rw [getStatus_eq_none w w1 ht' hg]
      exact ⟨by simp [stoppedStatus], fun _ => ⟨rfl, rfl, rfl, rfl⟩⟩
    · rcases n with _ | n
      · rw [getStatus_eq_zero w w1 ht' hg]
        exact ⟨by simp [stoppedStatus], fun _ => ⟨rfl, rfl, rfl, rfl⟩⟩
      · rw [getStatus_eq_succ w w1 n ht' hg]
        split
        · exact ⟨by simp, fun habs => absurd rfl habs⟩
        · exact ⟨by simp [stoppedStatus], fun _ => ⟨rfl, rfl, rfl, rfl⟩⟩

/-- Witness for C10: the non-running branch of the invariant evaluated at
a world with a live process (running) and at the quiescent world (stopped). -/
theorem getStatus_pid_invariant_witness :
    ((getStatus sampleWorld).1.pid = none ∧ (getStatus sampleWorld).1.uptime = 0 ∧
     (getStatus sampleWorld).1.cpuUsage = 0 ∧ (getStatus sampleWorld).1.memoryUsage = 0) ∧
    ((getStatus sampleWorld).1.status = "running" ↔ (getStatus sampleWorld).1.pid ≠ none) :=
  ⟨(getStatus_pid_invariant sampleWorld).2 (by decide),
   (getStatus_pid_invariant sampleWorld).1⟩

/-! ## Claim C1 -/

theorem setConnectionMode_eq_webhook (w : World)
    (hne : w.modeSetting.getD "webhook" ≠ "webhook") :
    setConnectionMode w Mode.webhook =
      (⟨true, "Switched mode"⟩,
       { (applyWebhook (stop w).2).2 with modeSetting := some "webhook" }) := by
  unfold setConnectionMode
  rw [if_neg (by simp [modeStr, hne])]
  rfl

theorem setConnectionMode_eq_gateway (w : World)
    (hne : w.modeSetting.getD "webhook" ≠ "gateway") :
    setConnectionMode w Mode.gateway =
      (⟨true, "Switched mode"⟩,
       { (start (deleteWebhook w).2).2 with modeSetting := some "gateway"}) := by
  unfold setConnectionMode
  rw [if_neg (by simp [modeStr, hne])]
  rfl

/-- World for the C1 counterexample: persisted mode "gateway", the
supervised process (pid 100) alive, signalling it raises (EPERM), and the
Telegram side fully configured, so only the stop leg fails. -/
def modeCexWorld : World :=
  { sampleWorld with
    modeSetting := some "gateway"
    pidFile := some (some 100)
    alive := [100]
    gatewayProcs := [100]
    killRaises := true
    botToken := some "token"
    productionUrl := some "https://host/webhook" }

/-- Claim C1 (counterexample): switching to webhook mode completes (the
transition never aborts: the new mode is persisted and the webhook is
applied) while the supervised process — resolved as pid 100 at entry —
is still running, because the stop leg failed.  This falsifies the claim
that the postcondition holds even when an individual leg fails. -/
theorem setConnectionMode_cex :
    (setConnectionMode modeCexWorld Mode.webhook).1.success = true ∧
    (setConnectionMode modeCexWorld Mode.webhook).2.modeSetting = some "webhook" ∧
    (setConnectionMode modeCexWorld Mode.webhook).2.subscriptionUrl = some "https://host/webhook" ∧
    (getCurrentPid modeCexWorld).1 = some 100 ∧
    100 ∈ (setConnectionMode modeCexWorld Mode.webhook).2.alive := by
  decide

/-- Claim C1 (amended): when the target mode differs from the persisted
one, the transition never aborts, and: if the stop leg succeeds, then
after `setConnectionMode` to webhook mode the process resolved at entry
(any nonzero pid) is no longer running; if the deleteWebhook leg
succeeds, then after `setConnectionMode` to gateway mode no provider
subscription URL is set.  (When the relevant leg fails, the transition
still completes but the corresponding postcondition can be violated.) -/
theorem setConnectionMode_exclusion (w : World) :
    (w.modeSetting.getD "webhook" ≠ "webhook" → (stop w).1.success = true →
      ∀ p, 0 < p → (getCurrentPid w).1 = some p →
        p ∉ (setConnectionMode w Mode.webhook).2.alive) ∧
    (w.modeSetting.getD "webhook" ≠ "gateway" → (deleteWebhook w).1.success = true →
      (setConnectionMode w Mode.gateway).2.subscriptionUrl = none) := by
  constructor
  · intro hcur hs p hp hres
    rw [setConnectionMode_eq_webhook w hcur]
    show p ∉ (applyWebhook (stop w).2).2.alive
    rw [(applyWebhook_fields (stop w).2).1]
    exact stop_success_not_alive w p hp hres hs
  · intro hcur hd
    rw [setConnectionMode_eq_gateway w hcur]
    show (start (deleteWebhook w).2).2.subscriptionUrl = none
    rw [start_subscriptionUrl (deleteWebhook w).2]
    exact deleteWebhook_success_clears w hd

/-- World where the stop leg succeeds (pid 5 alive, signals deliverable). -/
def modeOkWorldA : World :=
  { sampleWorld with
    modeSetting := some "gateway"
    pidFile := some (some 5)
    alive := [5] }

/-- World where the deleteWebhook leg succeeds (token set, API up). -/
def modeOkWorldB : World :=
  { sampleWorld with
    modeSetting := some "webhook"
    botToken := some "token"
    subscriptionUrl := some "https://host/webhook" }

/-- Witness for the amended C1 at `modeOkWorldA` / `modeOkWorldB`. -/
theorem setConnectionMode_exclusion_witness :
    5 ∉ (setConnectionMode modeOkWorldA Mode.webhook).2.alive ∧
    (setConnectionMode modeOkWorldB Mode.gateway).2.subscriptionUrl = none :=
  ⟨(setConnectionMode_exclusion modeOkWorldA).1 (by decide) (by decide) 5 (by decide) (by decide),
   (setConnectionMode_exclusion modeOkWorldB).2 (by decide) (by decide)⟩

/-! ## Claim C2 -/

/-- Claim C2: starting from an empty restart history, four reconciliation
cycles that each observe an inactive webhook (auto-restart enabled,
`max_restart_attempts = 3`) within one 5-minute span attempt exactly
three restarts — all recorded with triggerType "webhook_check" — and the
fourth cycle attempts none: it sends the out-of-band alert and appends a
status log with actionTaken "alert". -/
theorem rate_limit_holds (st : PollerState) (c1 c2 c3 c4 : CycleInput)
    (hst : st.restartLogs = [])
    (h1 : c1.status.isActive = false ∧ c1.autoRestartEnabled = true ∧ c1.maxAttempts = 3)
    (h2 : c2.status.isActive = false ∧ c2.autoRestartEnabled = true ∧ c2.maxAttempts = 3)
    (h3 : c3.status.isActive = false ∧ c3.autoRestartEnabled = true ∧ c3.maxAttempts = 3)
    (h4 : c4.status.isActive = false ∧ c4.autoRestartEnabled = true ∧ c4.maxAttempts = 3)
    (ht12 : c1.now ≤ c2.now) (ht23 : c2.now ≤ c3.now) (ht34 : c3.now ≤ c4.now)
    (hspan : c4.now ≤ c1.now + 300000) :
    (checkAndRestart c4 (checkAndRestart c3 (checkAndRestart c2 (checkAndRestart c1 st)))).restartCalls
        = st.restartCalls + 3 ∧
    (checkAndRestart c3 (checkAndRestart c2 (checkAndRestart c1 st))).restartCalls
        = st.restartCalls + 3 ∧
    (checkAndRestart c4 (checkAndRestart c3 (checkAndRestart c2 (checkAndRestart c1 st)))).restartLogs.length
        = 3 ∧
    (∀ r ∈ (checkAndRestart c4 (checkAndRestart c3 (checkAndRestart c2 (checkAndRestart c1 st)))).restartLogs,
        r.triggerType = "webhook_check") ∧
    ((checkAndRestart c4 (checkAndRestart c3 (checkAndRestart c2 (checkAndRestart c1 st)))).webhookLogs.head?.map
        (fun e => e.actionTaken)) = some "alert" ∧
    (checkAndRestart c4 (checkAndRestart c3 (checkAndRestart c2 (checkAndRestart c1 st)))).alerts
        = st.alerts + 1 := by
  obtain ⟨hA1, hE1, hM1⟩ := h1
  obtain ⟨hA2, hE2, hM2⟩ := h2
  obtain ⟨hA3, hE3, hM3⟩ := h3
  obtain ⟨hA4, hE4, hM4⟩ := h4
  have hcr1 : (mkRestartLog c1).createdAt = c1.now := rfl
  have hcr2 : (mkRestartLog c2).createdAt = c2.now := rfl
  have hcr3 : (mkRestartLog c3).createdAt = c3.now := rfl
  -- cycle 1: zero attempts recorded, restart
  have e1 := checkAndRestart_restart_effects c1 st hA1 hE1
    (by rw [hM1, hst, getRecentRestartAttempts_nil]; omega)
  have hlogs1 : (checkAndRestart c1 st).restartLogs = [mkRestartLog c1] := by
    rw [e1.2.1, hst]
  -- cycle 2: one attempt in window, restart
  have e2 := checkAndRestart_restart_effects c2 (checkAndRestart c1 st) hA2 hE2
    (by rw [hM2, hlogs1, getRecentRestartAttempts_cons, getRecentRestartAttempts_nil,
            if_pos (by rw [hcr1]; omega)]
        omega)
  have hlogs2 : (checkAndRestart c2 (checkAndRestart c1 st)).restartLogs =
      [mkRestartLog c2, mkRestartLog c1] := by
    rw [e2.2.1, hlogs1]
  -- cycle 3: two attempts in window, restart
  have e3 := checkAndRestart_restart_effects c3 (checkAndRestart c2 (checkAndRestart c1 st)) hA3 hE3
    (by rw [hM3, hlogs2, getRecentRestartAttempts_cons, getRecentRestartAttempts_cons,
            getRecentRestartAttempts_nil,
            if_pos (by rw [hcr2]; omega), if_pos (by rw [hcr1]; omega)]
        omega)
  have hlogs3 : (checkAndRestart c3 (checkAndRestart c2 (checkAndRestart c1 st))).restartLogs =
      [mkRestartLog c3, mkRestartLog c2, mkRestartLog c1] := by
    rw [e3.2.1, hlogs2]
  -- cycle 4: three attempts in window, rate-limited alert
  have e4 := checkAndRestart_alert_effects c4
    (checkAndRestart c3 (checkAndRestart c2 (checkAndRestart c1 st))) hA4 hE4
    (by rw [hM4, hlogs3, getRecentRestartAttempts_cons, getRecentRestartAttempts_cons,
            getRecentRestartAttempts_cons, getRecentRestartAttempts_nil,
            if_pos (by rw [hcr3]; omega), if_pos (by rw [hcr2]; omega),
            if_pos (by rw [hcr1]; omega)])
  have hcalls3 : (checkAndRestart c3 (checkAndRestart c2 (checkAndRestart c1 st))).restartCalls =
      st.restartCalls + 3 := by
    rw [e3.1, e2.1, e1.1]
  refine ⟨?_, hcalls3, ?_, ?_, ?_, ?_⟩
  · rw [e4.1, hcalls3]
  · rw [e4.2.1, hlogs3]
    rfl
  · intro r hr
    rw [e4.2.1, hlogs3] at hr
    simp only [List.mem_cons, List.not_mem_nil, or_false] at hr
    rcases hr with rfl | rfl | rfl <;> rfl
  · rw [e4.2.2.2]
    rfl
  · rw [e4.2.2.1, e3.2.2, e2.2.2, e1.2.2]

/-- A canonical inactive-webhook cycle at time `t` (auto-restart on,
limit 3, successful restart outcome). -/
def inactiveCycle (t : Nat) : CycleInput :=
  ⟨⟨false, some "https://h/w", 2, some 99, some "connection refused"⟩, t, 10, true, 3,
   ⟨true, some 1, some 2, 5, "ok", none⟩⟩

/-- Witness for C2: four inactive cycles at times 0, 1, 2, 3 from the
empty history. -/
theorem rate_limit_holds_witness :
    (checkAndRestart (inactiveCycle 3) (checkAndRestart (inactiveCycle 2)
        (checkAndRestart (inactiveCycle 1) (checkAndRestart (inactiveCycle 0) samplePoller)))).restartCalls
      = samplePoller.restartCalls + 3 ∧
    (checkAndRestart (inactiveCycle 2) (checkAndRestart (inactiveCycle 1)
        (checkAndRestart (inactiveCycle 0) samplePoller))).restartCalls
      = samplePoller.restartCalls + 3 ∧
    (checkAndRestart (inactiveCycle 3) (checkAndRestart (inactiveCycle 2)
        (checkAndRestart (inactiveCycle 1) (checkAndRestart (inactiveCycle 0) samplePoller)))).restartLogs.length
      = 3 ∧
    (∀ r ∈ (checkAndRestart (inactiveCycle 3) (checkAndRestart (inactiveCycle 2)
        (checkAndRestart (inactiveCycle 1) (checkAndRestart (inactiveCycle 0) samplePoller)))).restartLogs,
        r.triggerType = "webhook_check") ∧
    ((checkAndRestart (inactiveCycle 3) (checkAndRestart (inactiveCycle 2)
        (checkAndRestart (inactiveCycle 1) (checkAndRestart (inactiveCycle 0) samplePoller)))).webhookLogs.head?.map
        (fun e => e.actionTaken)) = some "alert" ∧
    (checkAndRestart (inactiveCycle 3) (checkAndRestart (inactiveCycle 2)
        (checkAndRestart (inactiveCycle 1) (checkAndRestart (inactiveCycle 0) samplePoller)))).alerts
      = samplePoller.alerts + 1 :=
  rate_limit_holds samplePoller (inactiveCycle 0) (inactiveCycle 1) (inactiveCycle 2)
    (inactiveCycle 3) rfl (by decide) (by decide) (by decide) (by decide)
    (by decide) (by decide) (by decide) (by decide)

/-! ## Claim C6 -/

/-- Poller state for the C6 counterexample: three restart attempts
already inside the window. -/
def exhaustedHistory : PollerState :=
  ⟨[], [⟨"manual", "r", none, none, true, none, 0, 1000000⟩,
        ⟨"manual", "r", none, none, true, none, 0, 1000000⟩,
        ⟨"manual", "r", none, none, true, none, 0, 1000000⟩], 0, 0⟩

/-- Cycle input for the C6 counterexample (inactive, enabled, limit 3). -/
def exhaustedCycle : CycleInput :=
  ⟨⟨false, some "https://h/w", 2, some 99, some "connection refused"⟩, 1000000, 10, true, 3,
   ⟨true, some 1, some 2, 5, "ok", none⟩⟩

/-- Claim C6 (counterexample): a rate-limited cycle appends TWO
WebhookCheckRecords (first the unconditional "none" record, then the
"alert" record), not exactly one. -/
theorem webhook_log_cex :
    (checkAndRestart exhaustedCycle exhaustedHistory).webhookLogs.length = 2 ∧
    exhaustedHistory.webhookLogs.length = 0 ∧
    ((checkAndRestart exhaustedCycle exhaustedHistory).webhookLogs.map
        (fun e => e.actionTaken)) = ["alert", "none"] := by
  decide

/-- Claim C6 (amended): every cycle appends a WebhookCheckRecord with
actionTaken "none"; a rate-limited cycle appends a second record with
actionTaken "alert", and a cycle whose restart attempt succeeds appends a
second record with actionTaken "restart" — so a cycle appends one record,
or two on rate-limited and successfully-restarting cycles (a cycle whose
restart attempt fails appends only the "none" record). -/
theorem webhook_log_per_cycle (inp : CycleInput) (st : PollerState) :
    (inp.status.isActive = true →
      (checkAndRestart inp st).webhookLogs = mkNoneLog inp :: st.webhookLogs) ∧
    (inp.status.isActive = false → inp.autoRestartEnabled = false →
      (checkAndRestart inp st).webhookLogs = mkNoneLog inp :: st.webhookLogs) ∧
    (inp.status.isActive = false → inp.autoRestartEnabled = true →
      inp.maxAttempts ≤ getRecentRestartAttempts 5 inp.now st.restartLogs →
      (checkAndRestart inp st).webhookLogs =
        mkAlertLog inp :: mkNoneLog inp :: st.webhookLogs) ∧
    (inp.status.isActive = false → inp.autoRestartEnabled = true →
      getRecentRestartAttempts 5 inp.now st.restartLogs < inp.maxAttempts →
      (checkAndRestart inp st).webhookLogs =
        if inp.restartOutcome.success then
          mkRestartActionLog inp :: mkNoneLog inp :: st.webhookLogs
        else
          mkNoneLog inp :: st.webhookLogs) := by
  refine ⟨fun hA => ?_, fun hA hE => ?_, fun hA hE hge => ?_, fun hA hE hlt => ?_⟩
  · rw [checkAndRestart_eq_active inp st hA]
    rfl
  · rw [checkAndRestart_eq_disabled inp st hA hE]
    rfl
  · rw [checkAndRestart_eq_alert inp st hA hE hge]
    rfl
  · rw [checkAndRestart_eq_restart inp st hA hE hlt]
    split <;> rfl

/-- An active-webhook cycle. -/
def activeCycle : CycleInput :=
  ⟨⟨true, some "https://h/w", 0, none, none⟩, 1000000, 10, true, 3,
   ⟨true, some 1, some 2, 5, "ok", none⟩⟩

/-- An inactive cycle whose restart attempt fails. -/
def failRestartCycle : CycleInput :=
  ⟨⟨false, some "https://h/w", 2, some 99, some "connection refused"⟩, 1000000, 10, true, 3,
   ⟨false, some 1, none, 5, "Failed to stop old process", some "boom"⟩⟩

/-- Witness for the amended C6: all four cycle shapes evaluated concretely. -/
theorem webhook_log_per_cycle_witness :
    ((checkAndRestart activeCycle samplePoller).webhookLogs =
      mkNoneLog activeCycle :: samplePoller.webhookLogs) ∧
    ((checkAndRestart disabledCycle samplePoller).webhookLogs =
      mkNoneLog disabledCycle :: samplePoller.webhookLogs) ∧
    ((checkAndRestart exhaustedCycle exhaustedHistory).webhookLogs =
      mkAlertLog exhaustedCycle :: mkNoneLog exhaustedCycle :: exhaustedHistory.webhookLogs) ∧
    ((checkAndRestart failRestartCycle samplePoller).webhookLogs =
      if failRestartCycle.restartOutcome.success then
        mkRestartActionLog failRestartCycle :: mkNoneLog failRestartCycle :: samplePoller.webhookLogs
      else
        mkNoneLog failRestartCycle :: samplePoller.webhookLogs) :=
  ⟨(webhook_log_per_cycle activeCycle samplePoller).1 (by decide),
   (webhook_log_per_cycle disabledCycle samplePoller).2.1 (by decide) (by decide),
   (webhook_log_per_cycle exhaustedCycle exhaustedHistory).2.2.1 (by decide) (by decide) (by decide),
   (webhook_log_per_cycle failRestartCycle samplePoller).2.2.2 (by decide) (by decide) (by decide)⟩

/-! ## Claim C9 -/

theorem runCycles_cons (c : CycleInput) (rest : List CycleInput) (s : PollerState) :
    runCycles (c :: rest) s = runCycles rest (checkAndRestart c s) := rfl

/-- Core bound: along any run of inactive, auto-restart-enabled cycles
(limit `m`) whose times fit in one 5-minute span, if every cycle already
sees at least `j` attempts in its window, at most `m - j` further
restarts are invoked. -/
theorem runCycles_restart_bound (cycles : List CycleInput) :
    ∀ (s : PollerState) (m j : Nat),
      (∀ c ∈ cycles, c.status.isActive = false ∧ c.autoRestartEnabled = true ∧
        c.maxAttempts = m) →
      List.Pairwise (fun a b => a.now ≤ b.now ∧ b.now ≤ a.now + 300000) cycles →
      (∀ c ∈ cycles, j ≤ getRecentRestartAttempts 5 c.now s.restartLogs) →
      (runCycles cycles s).restartCalls ≤ s.restartCalls + (m - j) := by
  induction cycles with
  | nil =>
    intro s m j _ _ _
    simp [runCycles]
  | cons c rest ih =>
    intro s m j hcy hpair hj
    obtain ⟨hA, hE, hM⟩ := hcy c (by simp)
    have hrel := (List.pairwise_cons.mp hpair).1
    have hpair' := (List.pairwise_cons.mp hpair).2
    have hrest : ∀ x ∈ rest, x.status.isActive = false ∧ x.autoRestartEnabled = true ∧
        x.maxAttempts = m := fun x hx => hcy x (by simp [hx])
    rw [runCycles_cons]
    by_cases hge : m ≤ getRecentRestartAttempts 5 c.now s.restartLogs
    · have e := checkAndRestart_alert_effects c s hA hE (by rw [hM]; exact hge)
      have hb := ih (checkAndRestart c s) m j hrest hpair'
        (fun x hx => by rw [e.2.1]; exact hj x (by simp [hx]))
      calc (runCycles rest (checkAndRestart c s)).restartCalls
          ≤ (checkAndRestart c s).restartCalls + (m - j) := hb
        _ = s.restartCalls + (m - j) := by rw [e.1]
    · have hlt : getRecentRestartAttempts 5 c.now s.restartLogs < m := by omega
      have e := checkAndRestart_restart_effects c s hA hE (by rw [hM]; exact hlt)
      have hjm : j < m := lt_of_le_of_lt (hj c (by simp)) hlt
      have hcr : (mkRestartLog c).createdAt = c.now := rfl
      have hb := ih (checkAndRestart c s) m (j + 1) hrest hpair'
        (fun x hx => by
          rw [e.2.1, getRecentRestartAttempts_cons,
              if_pos (by rw [hcr]; have := hrel x hx; omega)]
          have := hj x (by simp [hx])
          omega)
      calc (runCycles rest (checkAndRestart c s)).restartCalls
          ≤ (checkAndRestart c s).restartCalls + (m - (j + 1)) := hb
        _ = s.restartCalls + 1 + (m - (j + 1)) := by rw [e.1]
        _ ≤ s.restartCalls + (m - j) := by omega

/-- Claim C9: `getRecentRestartAttempts` counts every restart record in
the 5-minute window regardless of its triggerType, so a history of `k`
manual records inside the window leaves only `max_restart_attempts − k`
webhook-triggered restarts to a run of inactive cycles before the alert
escalation fires. -/
theorem rate_limit_counts_all_triggers (cycles : List CycleInput) (st : PollerState)
    (m k : Nat)
    (hcy : ∀ c ∈ cycles, c.status.isActive = false ∧ c.autoRestartEnabled = true ∧
      c.maxAttempts = m)
    (hpair : List.Pairwise (fun a b => a.now ≤ b.now ∧ b.now ≤ a.now + 300000) cycles)
    (hman : ∀ r ∈ st.restartLogs, r.triggerType = "manual")
    (hlen : st.restartLogs.length = k)
    (hwin : ∀ r ∈ st.restartLogs, ∀ c ∈ cycles, c.now - 300000 ≤ r.createdAt) :
    (runCycles cycles st).restartCalls ≤ st.restartCalls + (m - k) := by
  apply runCycles_restart_bound cycles st m k hcy hpair
  intro c hc
  rw [getRecentRestartAttempts_all 5 c.now st.restartLogs
      (fun r hr => by have := hwin r hr c hc; omega), hlen]

/-- One manual restart record inside the window of the witness cycles. -/
def manualHistory : PollerState :=
  ⟨[], [⟨"manual", "operator restart", some 1, some 2, true, none, 7, 1000000⟩], 0, 0⟩

/-- Witness for C9: one manual record (k = 1, m = 3) and three inactive
cycles allow at most two webhook restarts. -/
theorem rate_limit_counts_all_triggers_witness :
    (runCycles [inactiveCycle 1000000, inactiveCycle 1000001, inactiveCycle 1000002]
        manualHistory).restartCalls ≤ manualHistory.restartCalls + (3 - 1) :=
  rate_limit_counts_all_triggers
    [inactiveCycle 1000000, inactiveCycle 1000001, inactiveCycle 1000002]
    manualHistory 3 1 (by decide) (by decide) (by decide) (by decide) (by decide)

end Openclaw
